import Mathlib

set_option maxHeartbeats 1000000

/-!
Shallow embedding of the SPACE KO bounty-converter calculation engine.

The repository holds several independent implementations of one formula
set: src/Claude.py, src/GPT.py, src/gemini.py, src/app4.py and others.
Exact rational arithmetic over ℚ models the Python float arithmetic of
the closed formulas; real numbers model the root finding and fractional
powers of the geometric bet sizing.  A Python division that can raise
ZeroDivisionError is modelled by an Option result, with none standing
for the raised exception.
-/

/-- Python division: a / b raises ZeroDivisionError when b = 0, modelled
by none; otherwise it yields the exact quotient. -/
def pydiv (a b : ℚ) : Option ℚ :=
  if b = 0 then none else some (a / b)

/-- Embedding of bounty_in_bb, src/Claude.py lines 18 to 26: guard on a zero
starting stack or big blind, then chip value, one-big-blind value, and the
final conversion with its own zero guard. -/
def claude_bounty_in_bb (buy_in starting_stack current_bb token_avg_eur : ℚ) : Option ℚ :=
  if starting_stack = 0 ∨ current_bb = 0 then some 0
  else
    match pydiv buy_in starting_stack with
    | none => none
    | some chip_value_eur =>
      let one_bb_in_eur := current_bb * chip_value_eur
      if one_bb_in_eur = 0 then some 0
      else pydiv token_avg_eur one_bb_in_eur

/-- Embedding of calculate_pot_odds, src/Claude.py lines 28 to 37: returns
the pair (odds_without, odds_with), each a percentage, with the (0, 0)
fallback when the pot plus call is zero. -/
def claude_calculate_pot_odds (pot_before amount_to_call bounty_bb : ℚ) : Option (ℚ × ℚ) :=
  let total_pot := pot_before + amount_to_call
  if total_pot = 0 then some (0, 0)
  else
    match pydiv amount_to_call total_pot, pydiv amount_to_call (total_pot + bounty_bb) with
    | some w, some b => some (w * 100, b * 100)
    | _, _ => none

/-- Embedding of calculate_spr, src/Claude.py lines 39 to 43. -/
def claude_calculate_spr (effective_stack pot_on_flop : ℚ) : Option ℚ :=
  if pot_on_flop = 0 then some 0
  else pydiv effective_stack pot_on_flop

/-- The five ordered SPR commitment bands shared by the source variants,
listed from lowest to highest commitment tolerance. -/
inductive SprBand where
  | veryLow
  | low
  | medium
  | high
  | veryHigh
  deriving DecidableEq

/-- Position of a band in the commitment-tolerance order. -/
def SprBand.rank : SprBand → ℕ
  | .veryLow => 0
  | .low => 1
  | .medium => 2
  | .high => 3
  | .veryHigh => 4

/-- Embedding of get_spr_interpretation, src/Claude.py lines 70 to 81,
keeping only the band structure of the returned strings: thresholds
2, 4, 7 and 13. -/
def claude_get_spr_interpretation (spr : ℚ) : SprBand :=
  if spr < 2 then .veryLow
  else if spr < 4 then .low
  else if spr < 7 then .medium
  else if spr < 13 then .high
  else .veryHigh

/-- Embedding of SpaceKOCalculator.get_spr_risk_level, src/app4.py lines
61 to 72: thresholds 1, 3, 6 and 13. -/
def app4_get_spr_risk_level (spr : ℚ) : SprBand :=
  if spr < 1 then .veryLow
  else if spr < 3 then .low
  else if spr < 6 then .medium
  else if spr < 13 then .high
  else .veryHigh

/-- Result type of the desktop variant of the SPR computation: a finite
value, or the Python float infinity. -/
inductive SprResult where
  | value : ℚ → SprResult
  | inf : SprResult
  deriving DecidableEq

/-- Embedding of SpaceKOCalculator.calculate_spr, src/app4.py lines 55 to
59: a zero pot yields float infinity, not zero. -/
def app4_calculate_spr (effective_stack pot_size : ℚ) : SprResult :=
  if pot_size = 0 then SprResult.inf
  else SprResult.value (effective_stack / pot_size)

/-- Embedding of SpaceKOCalculator.calculate_geometric_sizing, src/app4.py
lines 74 to 99: none models the Python (None, None) return.  The number of
streets is only compared against zero; the bet is always
(effective_stack - pot_size) / 2. -/
def app4_calculate_geometric_sizing (effective_stack pot_size : ℚ)
    (streets_remaining : ℤ) : Option (ℚ × ℚ) :=
  if streets_remaining ≤ 0 ∨ pot_size ≤ 0 then none
  else
    let bet_size := (effective_stack - pot_size) / 2
    if bet_size ≤ 0 ∨ effective_stack < bet_size then none
    else
      let bet_percentage := if 0 < pot_size then bet_size / pot_size * 100 else 0
      some (bet_size, bet_percentage)

/-- Embedding of the bounty conversion of src/gemini.py lines 49 to 51:
the current-big-blind cost in euro, then half the token value per big
blind when that cost is positive, else zero. -/
def gemini_bounty_in_bb (buy_in start_stack curr_bb_chips villain_bounty_eur : ℚ) : Option ℚ :=
  match pydiv buy_in start_stack with
  | none => none
  | some chip_to_eur_ratio =>
    let one_bb_eur := curr_bb_chips * chip_to_eur_ratio
    if 0 < one_bb_eur then
      match pydiv villain_bounty_eur one_bb_eur with
      | none => none
      | some t => some (t / 2)
    else some 0

/-- Embedding of the standard equity of src/gemini.py line 55. -/
def gemini_standard_equity (pot_before_bb call_amount_bb : ℚ) : ℚ :=
  if 0 < pot_before_bb + call_amount_bb then
    call_amount_bb / (pot_before_bb + call_amount_bb) * 100
  else 0

/-- Embedding of the bounty-adjusted equity of src/gemini.py line 56. -/
def gemini_bounty_equity (pot_before_bb call_amount_bb bounty_in_bb : ℚ) : ℚ :=
  if 0 < pot_before_bb + call_amount_bb + bounty_in_bb then
    call_amount_bb / (pot_before_bb + call_amount_bb + bounty_in_bb) * 100
  else 0

/-- Embedding of the bounty converter of src/GPT.py lines 42 to 45: half
the token value divided by the euro value of one big blind, with a zero
fallback when that value is not positive. -/
def gpt_bounty_bb (buy_in starting_stack current_bb villain_token_avg : ℚ) : Option ℚ :=
  match pydiv buy_in starting_stack with
  | none => none
  | some chip_value_eur =>
    let value_of_one_bb_eur := current_bb * chip_value_eur
    let effective_bounty_eur := villain_token_avg * (1 / 2)
    if 0 < value_of_one_bb_eur then pydiv effective_bounty_eur value_of_one_bb_eur
    else some 0

/-- Embedding of the pre-flop advisor equities of src/GPT.py lines 84 to
89: the standard denominator there is the pot plus twice the call. -/
def gpt_preflop_equities (pot_before to_call bounty_bb : ℚ) : Option (ℚ × ℚ) :=
  let total_pot_std := pot_before + to_call * 2
  match pydiv to_call total_pot_std with
  | none => none
  | some e1 =>
    match pydiv to_call (total_pot_std + bounty_bb) with
    | none => none
    | some e2 => some (e1 * 100, e2 * 100)

/-- Strictly positive real roots of the turn polynomial 2 x ^ 2 + 2 x - q,
the set kept by the root filter of src/Claude.py lines 57 to 60. -/
def turnPosRoots (q : ℝ) : Set ℝ := {x : ℝ | 0 < x ∧ 2 * x ^ 2 + 2 * x - q = 0}

/-- Strictly positive real roots of the river polynomial
4 x ^ 3 + 6 x ^ 2 + 3 x - q, src/Claude.py lines 62 to 66. -/
def riverPosRoots (q : ℝ) : Set ℝ := {x : ℝ | 0 < x ∧ 4 * x ^ 3 + 6 * x ^ 2 + 3 * x - q = 0}

/-- The value of the Python expression max(S, default=0): the greatest
element of S, or 0 when S is empty. -/
def rootSel (S : Set ℝ) (r : ℝ) : Prop :=
  IsGreatest S r ∨ (S = ∅ ∧ r = 0)

/-- Input-output relation of geometric_bet_sizing, src/Claude.py lines 45
to 68: a zero flop pot returns (0, 0); otherwise the result is the pair of
selected positive roots of the two polynomials in the stack-to-pot ratio,
scaled to percentages. -/
def claude_geometric_rel (pot_on_flop effective_stack : ℝ) (res : ℝ × ℝ) : Prop :=
  (pot_on_flop = 0 ∧ res = (0, 0)) ∨
  (pot_on_flop ≠ 0 ∧ ∃ rt rr : ℝ,
    rootSel (turnPosRoots (effective_stack / pot_on_flop)) rt ∧
    rootSel (riverPosRoots (effective_stack / pot_on_flop)) rr ∧
    res = (rt * 100, rr * 100))

/-- Embedding of solve_geometric, src/gemini.py lines 62 to 68: the closed
form (((2 stack / pot) + 1) ^ (1 / streets) - 1) / 2 as a percentage, with
a zero fallback for a nonpositive pot or stack. -/
noncomputable def solve_geometric (streets : ℕ) (stack pot : ℝ) : ℝ :=
  if pot ≤ 0 ∨ stack ≤ 0 then 0
  else ((2 * stack / pot + 1) ^ ((1 : ℝ) / streets) - 1) / 2 * 100

/-- Closed-form candidate root ((1 + 2 q) ^ (1 / n) - 1) / 2 of the
n-street geometric equation at stack-to-pot ratio q. -/
noncomputable def geomRoot (n : ℕ) (q : ℝ) : ℝ :=
  ((1 + 2 * q) ^ ((1 : ℝ) / n) - 1) / 2

/-! Helper lemmas. -/

/-- Every band is one of the five constructors. -/
theorem sprBand_total (b : SprBand) :
    b = .veryLow ∨ b = .low ∨ b = .medium ∨ b = .high ∨ b = .veryHigh := by
  cases b <;> simp

/-- The Claude.py banding is monotone in the SPR value. -/
theorem rank_mono_claude (s t : ℚ) (hst : s ≤ t) :
    SprBand.rank (claude_get_spr_interpretation s) ≤
      SprBand.rank (claude_get_spr_interpretation t) := by
  unfold claude_get_spr_interpretation
  split_ifs <;> first | decide | (exfalso; linarith)

/-- The app4.py banding is monotone in the SPR value. -/
theorem rank_mono_app4 (s t : ℚ) (hst : s ≤ t) :
    SprBand.rank (app4_get_spr_risk_level s) ≤
      SprBand.rank (app4_get_spr_risk_level t) := by
  unfold app4_get_spr_risk_level
  split_ifs <;> first | decide | (exfalso; linarith)

/-! Claim theorems. -/

/-- C1: whenever the one-big-blind currency denominator is zero because
the current big blind is zero or the buy-in is zero, the bounty conversion
of src/Claude.py and of src/gemini.py returns 0 without raising a division
error, and the zero-denominator fallbacks of the pot-odds and SPR formulas
likewise return 0. -/
theorem claim_C1_zero_denominator_bounty_zero
    (buy_in starting_stack current_bb token_avg_eur
      pot_before amount_to_call bounty_bb effective_stack : ℚ)
    (h : current_bb = 0 ∨ buy_in = 0) :
    claude_bounty_in_bb buy_in starting_stack current_bb token_avg_eur = some 0 ∧
    (starting_stack ≠ 0 →
      gemini_bounty_in_bb buy_in starting_stack current_bb token_avg_eur = some 0) ∧
    (pot_before + amount_to_call = 0 →
      claude_calculate_pot_odds pot_before amount_to_call bounty_bb = some (0, 0)) ∧
    claude_calculate_spr effective_stack 0 = some 0 := by
  refine ⟨?_, ?_, ?_, ?_⟩
  · rcases h with hbb | hbi
    · simp [claude_bounty_in_bb, hbb]
    · by_cases hss : starting_stack = 0
      · simp [claude_bounty_in_bb, hss]
      · by_cases hbb : current_bb = 0
        · simp [claude_bounty_in_bb, hbb]
        · simp [claude_bounty_in_bb, pydiv, hss, hbb, hbi]
  · intro hss
    rcases h with hbb | hbi
    · simp [gemini_bounty_in_bb, pydiv, hss, hbb]
    · simp [gemini_bounty_in_bb, pydiv, hss, hbi]
  · intro h0
    simp [claude_calculate_pot_odds, h0]
  · simp [claude_calculate_spr]

/-- Witness for C1 at concrete inputs with a zero big blind. -/
theorem claim_C1_zero_denominator_bounty_zero_witness :
    claude_bounty_in_bb 10 20000 0 5 = some 0 ∧
    gemini_bounty_in_bb 10 20000 0 5 = some 0 ∧
    claude_calculate_pot_odds 0 0 25 = some (0, 0) ∧
    claude_calculate_spr 100 0 = some 0 :=
  ⟨(claim_C1_zero_denominator_bounty_zero 10 20000 0 5 0 0 25 100 (Or.inl rfl)).1,
   (claim_C1_zero_denominator_bounty_zero 10 20000 0 5 0 0 25 100 (Or.inl rfl)).2.1
     (by norm_num),
   (claim_C1_zero_denominator_bounty_zero 10 20000 0 5 0 0 25 100 (Or.inl rfl)).2.2.1
     (by norm_num),
   (claim_C1_zero_denominator_bounty_zero 10 20000 0 5 0 0 25 100 (Or.inl rfl)).2.2.2⟩

/-- C7 as stated is false: the desktop variant calculate_spr of src/app4.py
returns float infinity, not 0, when the flop pot is zero. -/
theorem claim_C7_counterexample :
    app4_calculate_spr 1 0 = SprResult.inf ∧ SprResult.inf ≠ SprResult.value 0 := by
  refine ⟨rfl, ?_⟩
  intro h
  exact SprResult.noConfusion h

/-- C7 amended: the Claude.py SPR computation returns exactly 0 on a zero
flop pot and the exact ratio otherwise, never raising; the app4.py variant
instead returns float infinity on a zero flop pot and the exact ratio
otherwise. -/
theorem claim_C7_spr_zero_pot (effective_stack pot : ℚ) (hpot : pot ≠ 0) :
    claude_calculate_spr effective_stack 0 = some 0 ∧
    claude_calculate_spr effective_stack pot = some (effective_stack / pot) ∧
    app4_calculate_spr effective_stack 0 = SprResult.inf ∧
    app4_calculate_spr effective_stack pot = SprResult.value (effective_stack / pot) := by
  refine ⟨?_, ?_, ?_, ?_⟩
  · simp [claude_calculate_spr]
  · simp [claude_calculate_spr, pydiv, hpot]
  · simp [app4_calculate_spr]
  · simp [app4_calculate_spr, hpot]

/-- Witness for the amended C7 at a stack of 3 and a pot of 2. -/
theorem claim_C7_spr_zero_pot_witness :
    claude_calculate_spr 3 0 = some 0 ∧
    claude_calculate_spr 3 2 = some (3 / 2) ∧
    app4_calculate_spr 3 0 = SprResult.inf ∧
    app4_calculate_spr 3 2 = SprResult.value (3 / 2) :=
  claim_C7_spr_zero_pot 3 2 (by norm_num)

/-- C8: both SPR band classifications are total on the non-negative reals,
assigning one of the five named bands, and monotone: a lower SPR value is
never assigned a band of higher commitment tolerance. -/
theorem claim_C8_spr_banding_total_monotone (s1 s2 : ℚ) (h0 : 0 ≤ s1) (h12 : s1 < s2) :
    (claude_get_spr_interpretation s1 = .veryLow ∨
      claude_get_spr_interpretation s1 = .low ∨
      claude_get_spr_interpretation s1 = .medium ∨
      claude_get_spr_interpretation s1 = .high ∨
      claude_get_spr_interpretation s1 = .veryHigh) ∧
    (app4_get_spr_risk_level s1 = .veryLow ∨
      app4_get_spr_risk_level s1 = .low ∨
      app4_get_spr_risk_level s1 = .medium ∨
      app4_get_spr_risk_level s1 = .high ∨
      app4_get_spr_risk_level s1 = .veryHigh) ∧
    SprBand.rank (claude_get_spr_interpretation s1) ≤
      SprBand.rank (claude_get_spr_interpretation s2) ∧
    SprBand.rank (app4_get_spr_risk_level s1) ≤
      SprBand.rank (app4_get_spr_risk_level s2) :=
  ⟨sprBand_total _, sprBand_total _, rank_mono_claude s1 s2 h12.le,
    rank_mono_app4 s1 s2 h12.le⟩

/-- Witness for C8 at SPR values 1 and 5. -/
theorem claim_C8_spr_banding_total_monotone_witness :
    SprBand.rank (claude_get_spr_interpretation 1) ≤
      SprBand.rank (claude_get_spr_interpretation 5) ∧
    SprBand.rank (app4_get_spr_risk_level 1) ≤
      SprBand.rank (app4_get_spr_risk_level 5) :=
  ⟨(claim_C8_spr_banding_total_monotone 1 5 (by norm_num) (by norm_num)).2.2.1,
   (claim_C8_spr_banding_total_monotone 1 5 (by norm_num) (by norm_num)).2.2.2⟩

/-- C9: the desktop geometric sizing of src/app4.py ignores the number of
streets whenever it is at least 1: any two such street counts give
identical results. -/
theorem claim_C9_app4_geometric_streets_independent
    (effective_stack pot_size : ℚ) (s1 s2 : ℤ) (h1 : 1 ≤ s1) (h2 : 1 ≤ s2) :
    app4_calculate_geometric_sizing effective_stack pot_size s1 =
      app4_calculate_geometric_sizing effective_stack pot_size s2 := by
  have e1 : ¬ s1 ≤ 0 := by omega
  have e2 : ¬ s2 ≤ 0 := by omega
  simp only [app4_calculate_geometric_sizing, e1, e2, false_or]

/-- Witness for C9: 2 and 3 streets agree at a stack of 30 and pot of 10. -/
theorem claim_C9_app4_geometric_streets_independent_witness :
    (1 : ℤ) ≤ 2 ∧ (1 : ℤ) ≤ 3 ∧
    app4_calculate_geometric_sizing 30 10 2 = app4_calculate_geometric_sizing 30 10 3 :=
  ⟨by norm_num, by norm_num,
   claim_C9_app4_geometric_streets_independent 30 10 2 3 (by norm_num) (by norm_num)⟩

/-- C2 as stated is false: with a pot of 10, a call of 0 and a bounty of
25 the two percentages returned by calculate_pot_odds are equal although
the bounty is not zero. -/
theorem claim_C2_counterexample :
    claude_calculate_pot_odds 10 0 25 = some (0, 0) ∧ (25 : ℚ) ≠ 0 := by
  refine ⟨by norm_num [claude_calculate_pot_odds, pydiv], by norm_num⟩

/-- C2 amended: for non-negative inputs the bounty-adjusted percentage
never exceeds the standard percentage, in src/Claude.py calculate_pot_odds
and in the src/gemini.py equities alike, and the two are equal exactly
when the bounty is zero or the amount to call is zero. -/
theorem claim_C2_bounty_adjusted_le_standard (pot_before amount_to_call bounty_bb : ℚ)
    (hp : 0 ≤ pot_before) (hc : 0 ≤ amount_to_call) (hb : 0 ≤ bounty_bb) :
    ∃ w b : ℚ,
      claude_calculate_pot_odds pot_before amount_to_call bounty_bb = some (w, b) ∧
      b ≤ w ∧ (b = w ↔ bounty_bb = 0 ∨ amount_to_call = 0) ∧
      gemini_bounty_equity pot_before amount_to_call bounty_bb ≤
        gemini_standard_equity pot_before amount_to_call ∧
      (gemini_bounty_equity pot_before amount_to_call bounty_bb =
        gemini_standard_equity pot_before amount_to_call ↔
        bounty_bb = 0 ∨ amount_to_call = 0) := by
  by_cases h0 : pot_before + amount_to_call = 0
  · have hc0 : amount_to_call = 0 := by linarith
    have hp0 : pot_before = 0 := by linarith
    have hs : gemini_standard_equity pot_before amount_to_call = 0 := by
      simp [gemini_standard_equity, hp0, hc0]
    have hbq : gemini_bounty_equity pot_before amount_to_call bounty_bb = 0 := by
      unfold gemini_bounty_equity
      split_ifs <;> simp [hc0]
    refine ⟨0, 0, ?_, le_refl 0, ?_, ?_, ?_⟩
    · simp [claude_calculate_pot_odds, h0]
    · simp [hc0]
    · rw [hs, hbq]
    · rw [hs, hbq]
      simp [hc0]
  · have htot : 0 < pot_before + amount_to_call :=
      lt_of_le_of_ne (add_nonneg hp hc) (Ne.symm h0)
    have htb : 0 < pot_before + amount_to_call + bounty_bb := by linarith
    have key_le : amount_to_call / (pot_before + amount_to_call + bounty_bb) * 100 ≤
        amount_to_call / (pot_before + amount_to_call) * 100 := by
      have h1 : amount_to_call / (pot_before + amount_to_call + bounty_bb) ≤
          amount_to_call / (pot_before + amount_to_call) := by
        rw [div_le_div_iff₀ htb htot]
        nlinarith
      nlinarith
    have key_iff : amount_to_call / (pot_before + amount_to_call + bounty_bb) * 100 =
        amount_to_call / (pot_before + amount_to_call) * 100 ↔
        bounty_bb = 0 ∨ amount_to_call = 0 := by
      constructor
      · intro heq
        have h1 : amount_to_call / (pot_before + amount_to_call + bounty_bb) =
            amount_to_call / (pot_before + amount_to_call) := by linarith
        rw [div_eq_div_iff htb.ne' htot.ne'] at h1
        have h2 : amount_to_call * bounty_bb = 0 := by nlinarith
        rcases mul_eq_zero.mp h2 with h3 | h3
        · exact Or.inr h3
        · exact Or.inl h3
      · intro hor
        rcases hor with h3 | h3 <;> simp [h3]
    refine ⟨amount_to_call / (pot_before + amount_to_call) * 100,
      amount_to_call / (pot_before + amount_to_call + bounty_bb) * 100, ?_, key_le,
      key_iff, ?_, ?_⟩
    · simp [claude_calculate_pot_odds, pydiv, h0, htb.ne']
    · rw [gemini_standard_equity, gemini_bounty_equity, if_pos htot, if_pos htb]
      exact key_le
    · rw [gemini_standard_equity, gemini_bounty_equity, if_pos htot, if_pos htb]
      exact key_iff

/-- Witness for the amended C2 at a pot of 10, a call of 5 and a bounty
of 25. -/
theorem claim_C2_bounty_adjusted_le_standard_witness :
    (0 : ℚ) ≤ 10 ∧
    ∃ w b : ℚ,
      claude_calculate_pot_odds 10 5 25 = some (w, b) ∧
      b ≤ w ∧ (b = w ↔ (25 : ℚ) = 0 ∨ (5 : ℚ) = 0) ∧
      gemini_bounty_equity 10 5 25 ≤ gemini_standard_equity 10 5 ∧
      (gemini_bounty_equity 10 5 25 = gemini_standard_equity 10 5 ↔
        (25 : ℚ) = 0 ∨ (5 : ℚ) = 0) :=
  ⟨by norm_num,
   claim_C2_bounty_adjusted_le_standard 10 5 25 (by norm_num) (by norm_num) (by norm_num)⟩

/-- C3 as stated is false for the bounty conversion of src/Claude.py: it
applies no cash-share fraction, so the given scenario returns 50 big
blinds rather than 25. -/
theorem claim_C3_counterexample :
    claude_bounty_in_bb 10 20000 200 5 = some 50 ∧ (50 : ℚ) ≠ 25 := by
  refine ⟨by norm_num [claude_bounty_in_bb, pydiv], by norm_num⟩

/-- C3 amended: the bounty conversions of src/GPT.py and src/gemini.py
compute (tokenValue * 0.5) / (currentBigBlind * buyIn / startingStack) and
return exactly 25 big blinds in the given scenario, while the src/Claude.py
conversion omits the cash-share fraction and returns 50 there. -/
theorem claim_C3_bounty_formula (buy_in starting_stack current_bb token : ℚ)
    (hss : starting_stack ≠ 0)
    (hpos : 0 < current_bb * (buy_in / starting_stack)) :
    gpt_bounty_bb buy_in starting_stack current_bb token =
      some (token * (1 / 2) / (current_bb * (buy_in / starting_stack))) ∧
    gpt_bounty_bb 10 20000 200 5 = some 25 ∧
    gemini_bounty_in_bb 10 20000 200 5 = some 25 ∧
    claude_bounty_in_bb 10 20000 200 5 = some 50 := by
  refine ⟨?_, by norm_num [gpt_bounty_bb, pydiv],
    by norm_num [gemini_bounty_in_bb, pydiv],
    by norm_num [claude_bounty_in_bb, pydiv]⟩
  simp [gpt_bounty_bb, pydiv, hss, hpos, hpos.ne']

/-- Witness for the amended C3 at the scenario inputs. -/
theorem claim_C3_bounty_formula_witness :
    gpt_bounty_bb 10 20000 200 5 = some (5 * (1 / 2) / (200 * (10 / 20000))) ∧
    gemini_bounty_in_bb 10 20000 200 5 = some 25 :=
  ⟨(claim_C3_bounty_formula 10 20000 200 5 (by norm_num) (by norm_num)).1,
   (claim_C3_bounty_formula 10 20000 200 5 (by norm_num) (by norm_num)).2.2.1⟩

/-- C6 as stated is false for the pre-flop advisor of src/GPT.py: its
standard-equity denominator is the pot plus twice the call, so the given
scenario yields 25 percent, not 100 * 5 / (10 + 5). -/
theorem claim_C6_counterexample :
    gpt_preflop_equities 10 5 25 = some (25, 100 / 9) ∧
    (25 : ℚ) ≠ 100 * 5 / (10 + 5) := by
  refine ⟨by norm_num [gpt_preflop_equities, pydiv], by norm_num⟩

/-- C6 amended: in src/Claude.py calculate_pot_odds the standard required
equity is 100 * amountToCall / (potBefore + amountToCall), with the (0, 0)
fallback when that denominator is zero, and the scenario with a pot of 10,
a call of 5 and a bounty of 25 returns exactly (100 / 3, 12.5), the first
component rounding to 33.33; the src/GPT.py pre-flop advisor instead
divides by the pot plus twice the call and returns 25 percent there. -/
theorem claim_C6_standard_equity_formula (pot_before amount_to_call bounty_bb : ℚ)
    (h0 : pot_before + amount_to_call ≠ 0)
    (hb : pot_before + amount_to_call + bounty_bb ≠ 0) :
    claude_calculate_pot_odds pot_before amount_to_call bounty_bb =
      some (100 * amount_to_call / (pot_before + amount_to_call),
        100 * amount_to_call / (pot_before + amount_to_call + bounty_bb)) ∧
    (∀ p c b : ℚ, p + c = 0 → claude_calculate_pot_odds p c b = some (0, 0)) ∧
    claude_calculate_pot_odds 10 5 25 = some (100 / 3, 25 / 2) ∧
    |100 / 3 - (33.33 : ℚ)| < 1 / 100 ∧
    gpt_preflop_equities 10 5 25 = some (25, 100 / 9) := by
  refine ⟨?_, ?_, by norm_num [claude_calculate_pot_odds, pydiv], ?_,
    by norm_num [gpt_preflop_equities, pydiv]⟩
  · simp only [claude_calculate_pot_odds, pydiv, h0, hb, if_neg, if_false,
      Option.some.injEq, Prod.mk.injEq]
    constructor <;> ring
  · intro p c b hpc
    simp [claude_calculate_pot_odds, hpc]
  · rw [show (100 : ℚ) / 3 - 33.33 = 1 / 300 from by norm_num,
      abs_of_pos (show (0 : ℚ) < 1 / 300 from by norm_num)]
    norm_num

/-- Witness for the amended C6 at the scenario inputs. -/
theorem claim_C6_standard_equity_formula_witness :
    claude_calculate_pot_odds 10 5 25 =
      some (100 * 5 / (10 + 5), 100 * 5 / (10 + 5 + 25)) :=
  (claim_C6_standard_equity_formula 10 5 25 (by norm_num) (by norm_num)).1

/-- A nonpositive ratio leaves no positive turn root. -/
theorem turnPosRoots_empty (q : ℝ) (hq : q ≤ 0) : turnPosRoots q = ∅ := by
  ext x
  simp only [turnPosRoots, Set.mem_setOf_eq, Set.mem_empty_iff_false, iff_false, not_and]
  intro hx heq
  nlinarith [mul_pos hx hx]

/-- A nonpositive ratio leaves no positive river root. -/
theorem riverPosRoots_empty (q : ℝ) (hq : q ≤ 0) : riverPosRoots q = ∅ := by
  ext x
  simp only [riverPosRoots, Set.mem_setOf_eq, Set.mem_empty_iff_false, iff_false, not_and]
  intro hx heq
  nlinarith [mul_pos hx hx, mul_pos (mul_pos hx hx) hx]

/-- Selection from an empty root set defaults to zero. -/
theorem rootSel_zero_of_empty (S : Set ℝ) (r : ℝ) (hS : S = ∅) (h : rootSel S r) :
    r = 0 := by
  rcases h with hg | hr
  · rw [hS] at hg
    exact absurd hg.1 (Set.not_mem_empty r)
  · exact hr.2

/-- The closed-form candidate satisfies (1 + 2 r) ^ n = 1 + 2 q. -/
theorem one_add_two_geomRoot_pow (n : ℕ) (hn : n ≠ 0) (q : ℝ) (hq : 0 < q) :
    (1 + 2 * geomRoot n q) ^ n = 1 + 2 * q := by
  have h1 : (0 : ℝ) ≤ 1 + 2 * q := by linarith
  have h2 : 1 + 2 * geomRoot n q = (1 + 2 * q) ^ ((1 : ℝ) / n) := by
    unfold geomRoot
    ring
  rw [h2, ← Real.rpow_natCast ((1 + 2 * q) ^ ((1 : ℝ) / n)) n, ← Real.rpow_mul h1,
    one_div, inv_mul_cancel₀ (Nat.cast_ne_zero.mpr hn), Real.rpow_one]

/-- The closed-form candidate is strictly positive for a positive ratio. -/
theorem geomRoot_pos (n : ℕ) (hn : n ≠ 0) (q : ℝ) (hq : 0 < q) : 0 < geomRoot n q := by
  have hx : (0 : ℝ) < 1 + 2 * q := by linarith
  have hy : (0 : ℝ) < (1 : ℝ) / n := by
    have hn0 : (0 : ℝ) < (n : ℝ) := by exact_mod_cast Nat.pos_of_ne_zero hn
    positivity
  have h1 : (1 : ℝ) < (1 + 2 * q) ^ ((1 : ℝ) / n) :=
    (Real.one_lt_rpow_iff_of_pos hx).mpr (Or.inl ⟨by linarith, hy⟩)
  unfold geomRoot
  linarith

/-- The closed form is a positive root of the turn polynomial. -/
theorem geomRoot_mem_turn (q : ℝ) (hq : 0 < q) : geomRoot 2 q ∈ turnPosRoots q := by
  refine ⟨geomRoot_pos 2 (by norm_num) q hq, ?_⟩
  have hp := one_add_two_geomRoot_pow 2 (by norm_num) q hq
  linear_combination hp / 2

/-- The closed form is a positive root of the river polynomial. -/
theorem geomRoot_mem_river (q : ℝ) (hq : 0 < q) : geomRoot 3 q ∈ riverPosRoots q := by
  refine ⟨geomRoot_pos 3 (by norm_num) q hq, ?_⟩
  have hp := one_add_two_geomRoot_pow 3 (by norm_num) q hq
  linear_combination hp / 2

/-- The turn polynomial has at most one positive root. -/
theorem turn_root_unique (q a b : ℝ) (ha : a ∈ turnPosRoots q) (hb : b ∈ turnPosRoots q) :
    a = b := by
  obtain ⟨hap, hae⟩ := ha
  obtain ⟨hbp, hbe⟩ := hb
  have h : (a - b) * (2 * (a + b) + 2) = 0 := by linear_combination hae - hbe
  rcases mul_eq_zero.mp h with h1 | h1
  · exact sub_eq_zero.mp h1
  · linarith

/-- The river polynomial has at most one positive root. -/
theorem river_root_unique (q a b : ℝ) (ha : a ∈ riverPosRoots q) (hb : b ∈ riverPosRoots q) :
    a = b := by
  obtain ⟨hap, hae⟩ := ha
  obtain ⟨hbp, hbe⟩ := hb
  have h : (a - b) * (4 * (a ^ 2 + a * b + b ^ 2) + 6 * (a + b) + 3) = 0 := by
    linear_combination hae - hbe
  rcases mul_eq_zero.mp h with h1 | h1
  · exact sub_eq_zero.mp h1
  · nlinarith [mul_pos hap hbp, mul_pos hap hap, mul_pos hbp hbp]

/-- The root selection for a positive ratio picks exactly the closed form
of the turn equation. -/
theorem rootSel_turn_eq (q r : ℝ) (hq : 0 < q) (h : rootSel (turnPosRoots q) r) :
    r = geomRoot 2 q := by
  rcases h with hg | ⟨hemp, _⟩
  · exact turn_root_unique q r (geomRoot 2 q) hg.1 (geomRoot_mem_turn q hq)
  · exact absurd (hemp ▸ geomRoot_mem_turn q hq) (Set.not_mem_empty _)

/-- The root selection for a positive ratio picks exactly the closed form
of the river equation. -/
theorem rootSel_river_eq (q r : ℝ) (hq : 0 < q) (h : rootSel (riverPosRoots q) r) :
    r = geomRoot 3 q := by
  rcases h with hg | ⟨hemp, _⟩
  · exact river_root_unique q r (geomRoot 3 q) hg.1 (geomRoot_mem_river q hq)
  · exact absurd (hemp ▸ geomRoot_mem_river q hq) (Set.not_mem_empty _)

/-- The closed form is the greatest positive turn root. -/
theorem turn_isGreatest (q : ℝ) (hq : 0 < q) :
    IsGreatest (turnPosRoots q) (geomRoot 2 q) :=
  ⟨geomRoot_mem_turn q hq,
   fun x hx => le_of_eq (turn_root_unique q x (geomRoot 2 q) hx (geomRoot_mem_turn q hq))⟩

/-- The closed form is the greatest positive river root. -/
theorem river_isGreatest (q : ℝ) (hq : 0 < q) :
    IsGreatest (riverPosRoots q) (geomRoot 3 q) :=
  ⟨geomRoot_mem_river q hq,
   fun x hx => le_of_eq (river_root_unique q x (geomRoot 3 q) hx (geomRoot_mem_river q hq))⟩

/-- On positive inputs solve_geometric computes the closed-form root as a
percentage of the stack-to-pot ratio. -/
theorem solve_geometric_eq_geomRoot (n : ℕ) (stack pot : ℝ)
    (hpot : 0 < pot) (hstack : 0 < stack) :
    solve_geometric n stack pot = geomRoot n (stack / pot) * 100 := by
  unfold solve_geometric geomRoot
  rw [if_neg (by push_neg; exact ⟨hpot, hstack⟩)]
  rw [show 2 * stack / pot + 1 = 1 + 2 * (stack / pot) from by ring]

/-- C4: for each of the listed stack-to-pot ratios, the closed-form
geometric sizing of src/gemini.py and the positive polynomial root
selected by src/Claude.py coincide exactly, hence agree within the
required relative tolerance of 1e-6, for both two and three streets. -/
theorem claim_C4_geometric_closed_form_agrees (q rt rr : ℝ)
    (hq : q ∈ ({1 / 10, 1, 5, 20, 100} : Set ℝ))
    (ht : rootSel (turnPosRoots q) rt)
    (hr : rootSel (riverPosRoots q) rr) :
    solve_geometric 2 q 1 = rt * 100 ∧
    |solve_geometric 2 q 1 - rt * 100| ≤ 1e-6 * |rt * 100| ∧
    solve_geometric 3 q 1 = rr * 100 ∧
    |solve_geometric 3 q 1 - rr * 100| ≤ 1e-6 * |rr * 100| := by
  have hq0 : 0 < q := by
    simp only [Set.mem_insert_iff, Set.mem_singleton_iff] at hq
    rcases hq with h | h | h | h | h <;> rw [h] <;> norm_num
  have hrt := rootSel_turn_eq q rt hq0 ht
  have hrr := rootSel_river_eq q rr hq0 hr
  have h2 : solve_geometric 2 q 1 = rt * 100 := by
    rw [solve_geometric_eq_geomRoot 2 q 1 one_pos hq0, div_one, hrt]
  have h3 : solve_geometric 3 q 1 = rr * 100 := by
    rw [solve_geometric_eq_geomRoot 3 q 1 one_pos hq0, div_one, hrr]
  refine ⟨h2, ?_, h3, ?_⟩
  · rw [h2, sub_self, abs_zero]
    exact mul_nonneg (by norm_num) (abs_nonneg _)
  · rw [h3, sub_self, abs_zero]
    exact mul_nonneg (by norm_num) (abs_nonneg _)

/-- Witness for C4 at ratio 1, using the closed forms as the selected
roots. -/
theorem claim_C4_geometric_closed_form_agrees_witness :
    solve_geometric 2 1 1 = geomRoot 2 1 * 100 ∧
    |solve_geometric 3 1 1 - geomRoot 3 1 * 100| ≤ 1e-6 * |geomRoot 3 1 * 100| :=
  ⟨(claim_C4_geometric_closed_form_agrees 1 (geomRoot 2 1) (geomRoot 3 1)
      (by norm_num [Set.mem_insert_iff, Set.mem_singleton_iff])
      (Or.inl (turn_isGreatest 1 one_pos)) (Or.inl (river_isGreatest 1 one_pos))).1,
   (claim_C4_geometric_closed_form_agrees 1 (geomRoot 2 1) (geomRoot 3 1)
      (by norm_num [Set.mem_insert_iff, Set.mem_singleton_iff])
      (Or.inl (turn_isGreatest 1 one_pos)) (Or.inl (river_isGreatest 1 one_pos))).2.2.2⟩

/-- C5 as stated is false: the desktop geometric sizing of src/app4.py
returns the Python pair (None, None), not 0, at an effective stack of 0
and a flop pot of 10. -/
theorem claim_C5_counterexample :
    app4_calculate_geometric_sizing 0 10 2 = none := by
  norm_num [app4_calculate_geometric_sizing]

/-- C5 amended: on a zero flop pot, or a positive flop pot with a
nonpositive effective stack, the src/Claude.py geometric sizing returns
the pair (0, 0); the src/gemini.py closed form returns 0 whenever the pot
or the stack is nonpositive; the src/app4.py desktop variant instead
returns the Python pair (None, None) in those degenerate cases. -/
theorem claim_C5_degenerate_geometric (stack pot : ℝ) (res res2 : ℝ × ℝ) (n : ℕ)
    (qs qp : ℚ) (s : ℤ) :
    (claude_geometric_rel 0 stack res → res = (0, 0)) ∧
    (0 < pot → stack ≤ 0 → claude_geometric_rel pot stack res2 → res2 = (0, 0)) ∧
    (pot ≤ 0 ∨ stack ≤ 0 → solve_geometric n stack pot = 0) ∧
    (qp ≤ 0 ∨ qs ≤ 0 → app4_calculate_geometric_sizing qs qp s = none) := by
  refine ⟨?_, ?_, ?_, ?_⟩
  · rintro (⟨_, h⟩ | ⟨hne, _⟩)
    · exact h
    · exact absurd rfl hne
  · intro hpot hstack hrel
    rcases hrel with ⟨hp0, _⟩ | ⟨_, rt, rr, hst, hsr, hres⟩
    · exact absurd hp0 hpot.ne'
    · have hq : stack / pot ≤ 0 := div_nonpos_iff.mpr (Or.inr ⟨hstack, hpot.le⟩)
      have h1 : rt = 0 := rootSel_zero_of_empty _ _ (turnPosRoots_empty _ hq) hst
      have h2 : rr = 0 := rootSel_zero_of_empty _ _ (riverPosRoots_empty _ hq) hsr
      rw [hres, h1, h2]
      norm_num
  · intro h
    unfold solve_geometric
    rw [if_pos h]
  · intro h
    simp only [app4_calculate_geometric_sizing]
    split_ifs with h1 h2
    · rfl
    · rfl
    · exfalso
      push_neg at h1 h2
      rcases h with hqp | hqs
      · linarith [h1.2]
      · linarith [h1.2, h2.1]

/-- Witness for the amended C5 at an effective stack of 0 and a flop pot
of 10. -/
theorem claim_C5_degenerate_geometric_witness :
    solve_geometric 2 0 10 = 0 ∧
    app4_calculate_geometric_sizing 0 10 2 = none ∧
    (((0 : ℝ), (0 : ℝ)) : ℝ × ℝ) = (0, 0) := by
  have h := claim_C5_degenerate_geometric 0 10 ((0 : ℝ), (0 : ℝ)) ((0 : ℝ), (0 : ℝ)) 2 0 10 2
  refine ⟨h.2.2.1 (Or.inr le_rfl), h.2.2.2 (Or.inr le_rfl), ?_⟩
  refine h.2.1 (by norm_num) le_rfl ?_
  exact Or.inr ⟨by norm_num, 0, 0,
    Or.inr ⟨turnPosRoots_empty _ (by norm_num), rfl⟩,
    Or.inr ⟨riverPosRoots_empty _ (by norm_num), rfl⟩, by norm_num⟩

/-- C10: every result pair of the src/Claude.py geometric sizing has two
non-negative components, for all real inputs including negative ones,
because only strictly positive roots are kept and the selection defaults
to 0. -/
theorem claim_C10_geometric_nonneg (pot stack : ℝ) (res : ℝ × ℝ)
    (h : claude_geometric_rel pot stack res) : 0 ≤ res.1 ∧ 0 ≤ res.2 := by
  rcases h with ⟨_, hres⟩ | ⟨_, rt, rr, hst, hsr, hres⟩
  · rw [hres]
    exact ⟨le_refl 0, le_refl 0⟩
  · have h1 : 0 ≤ rt := by
      rcases hst with hg | ⟨_, h0⟩
      · exact le_of_lt hg.1.1
      · exact h0.ge
    have h2 : 0 ≤ rr := by
      rcases hsr with hg | ⟨_, h0⟩
      · exact le_of_lt hg.1.1
      · exact h0.ge
    rw [hres]
    exact ⟨mul_nonneg h1 (by norm_num), mul_nonneg h2 (by norm_num)⟩

/-- Witness for C10 at a zero flop pot. -/
theorem claim_C10_geometric_nonneg_witness :
    claude_geometric_rel 0 5 ((0 : ℝ), (0 : ℝ)) ∧
    0 ≤ (((0 : ℝ), (0 : ℝ)) : ℝ × ℝ).1 ∧ 0 ≤ (((0 : ℝ), (0 : ℝ)) : ℝ × ℝ).2 :=
  ⟨Or.inl ⟨rfl, rfl⟩, claim_C10_geometric_nonneg 0 5 (0, 0) (Or.inl ⟨rfl, rfl⟩)⟩
